import Mathlib

/-!
Verification of the structured-logging / trace-context subsystem of the
repository (files `out_of_sync_report/logger.py` and
`rmr_forecast/trace_utils.py`), as a shallow embedding in Lean 4.

Python strings are `String`, Python `None`-able strings are `Option String`,
Python dicts with string keys are association lists with an insert operation
that overwrites the value of an existing key in place, and a raised Python
exception is the `.error` case of `Except String`.  Python truthiness of an
optional string (`if env_var:`, `trace_id or ...`) is modelled explicitly.
-/

set_option autoImplicit false

/-- Truthiness of a Python optional string: `None` and `""` are falsy. -/
def strTruthy : Option String → Bool
  | none => false
  | some s => s != ""

/-- Python `a or b` for optional strings: returns `a` when truthy, else `b`. -/
def pyOr (a b : Option String) : Option String :=
  if strTruthy a then a else b

/-- Contiguous-sublist test on character lists, used to model Python's
substring operator. -/
def isSublist (needle : List Char) : List Char → Bool
  | [] => needle.isEmpty
  | c :: rest => needle.isPrefixOf (c :: rest) || isSublist needle rest

/-- Python `sub in s` for strings (substring containment). -/
def containsSub (s sub : String) : Bool :=
  isSublist sub.toList s.toList

/-- Python `str.lower`, character by character (kernel-reducible). -/
def pyLower (s : String) : String :=
  String.mk (s.toList.map Char.toLower)

/-- Python `str.upper`, character by character (kernel-reducible). -/
def pyUpper (s : String) : String :=
  String.mk (s.toList.map Char.toUpper)

/-- Python `str.strip` with no argument: drop leading and trailing
whitespace. -/
def pyStrip (s : String) : String :=
  String.mk (((s.toList.dropWhile Char.isWhitespace).reverse.dropWhile
    Char.isWhitespace).reverse)

/-- Mirrors `EnvironmentLogger.ENV_MAPPING` of `logger.py` (a dict literal;
`dict.get k default` is modelled by `List.lookup` with a fallback). -/
def ENV_MAPPING : List (String × String) :=
  [("development", "development"),
   ("staging", "staging"),
   ("hotfixes", "hotfixes"),
   ("production", "production")]

/-- The `for env_var in env_sources` loop body of
`EnvironmentLogger._detect_environment`: skip falsy entries; on the first
truthy value, branch on whether its lowercase form contains `"lambda"`
(platform-marker path with substring sub-patterns) or fall back to the exact
`ENV_MAPPING` lookup of the lowercase, stripped value. -/
def detectFromSources : List (Option String) → String
  | [] => "development"
  | env_var :: rest =>
    if strTruthy env_var then
      let v := env_var.getD ""
      if containsSub (pyLower v) "lambda" then
        if containsSub (pyLower v) "prod" || containsSub (pyLower v) "production" then
          "production"
        else if containsSub (pyLower v) "staging" || containsSub (pyLower v) "stage" then
          "staging"
        else if containsSub (pyLower v) "hotfix" then
          "hotfixes"
        else
          "development"
      else
        match ENV_MAPPING.lookup (pyStrip (pyLower v)) with
        | some e => e
        | none => "development"
    else detectFromSources rest

/-- Mirrors `EnvironmentLogger._detect_environment`: the four environment
variables are read in priority order, with the literal `'development'`
appended as the default fallback entry of `env_sources`. -/
def detect_environment (environment env stage aws_lambda_function_name : Option String) : String :=
  detectFromSources
    [environment, env, stage, aws_lambda_function_name, some "development"]

/-- The uppercase module-level attributes of Python's `logging` module that
`getattr(logging, level.upper())` can hit: the eight integer level constants
plus the string constant `BASIC_FORMAT`.  Any other (uppercase) name raises
`AttributeError`. -/
inductive LoggingAttr where
  | levelInt (n : Nat)
  | strAttr (s : String)
deriving DecidableEq, Repr

/-- Result of `getattr(logging, name)` for an uppercase `name`. -/
def getattrLogging (name : String) : Option LoggingAttr :=
  if name = "CRITICAL" then some (.levelInt 50)
  else if name = "FATAL" then some (.levelInt 50)
  else if name = "ERROR" then some (.levelInt 40)
  else if name = "WARNING" then some (.levelInt 30)
  else if name = "WARN" then some (.levelInt 30)
  else if name = "INFO" then some (.levelInt 20)
  else if name = "DEBUG" then some (.levelInt 10)
  else if name = "NOTSET" then some (.levelInt 0)
  else if name = "BASIC_FORMAT" then
    some (.strAttr "%(levelname)s:%(name)s:%(message)s")
  else none

/-- The level names recognized by `logging._checkLevel` for string arguments
to `Logger.setLevel`. -/
def nameToLevel : List (String × Nat) :=
  [("CRITICAL", 50), ("FATAL", 50), ("ERROR", 40), ("WARNING", 30),
   ("WARN", 30), ("INFO", 20), ("DEBUG", 10), ("NOTSET", 0)]

/-- Mirrors `Logger.setLevel` applied to the value fetched from the `logging`
module: an integer is accepted as-is; a string must be a recognized level
name, otherwise `ValueError` is raised. -/
def setLevelCheck : LoggingAttr → Except String Nat
  | .levelInt n => .ok n
  | .strAttr s =>
    match nameToLevel.lookup s with
    | some n => .ok n
    | none => .error "ValueError: Unknown level"

/-- The state of one `EnvironmentLogger` instance: its name, the numeric
threshold installed by `setLevel`, the environment detected at construction,
and the mutable `current_trace_id` slot (the TraceContext). -/
structure LoggerState where
  name : String
  level : Nat
  environment : String
  current_trace_id : Option String
deriving DecidableEq, Repr

/-- The external environment-variable signals read at logger construction. -/
structure EnvSignals where
  ENVIRONMENT : Option String
  ENV : Option String
  STAGE : Option String
  AWS_LAMBDA_FUNCTION_NAME : Option String
deriving DecidableEq, Repr

/-- Mirrors `EnvironmentLogger.__init__`: `getattr(logging, level.upper())`
(raising `AttributeError` for unknown names) followed by `setLevel` (raising
`ValueError` when the fetched attribute is not a usable level), then
environment detection and a `current_trace_id` slot initialized to `None`. -/
def EnvironmentLogger.init (logger_name : String) (level : String)
    (sig : EnvSignals) : Except String LoggerState :=
  match getattrLogging (pyUpper level) with
  | none => .error "AttributeError"
  | some a =>
    match setLevelCheck a with
    | .error e => .error e
    | .ok lv =>
      .ok { name := logger_name, level := lv,
            environment := detect_environment sig.ENVIRONMENT sig.ENV sig.STAGE
              sig.AWS_LAMBDA_FUNCTION_NAME,
            current_trace_id := none }

/-- Mirrors `get_logger` of `logger.py`: constructs a fresh
`EnvironmentLogger`. -/
def get_logger (name : String) (level : String) (sig : EnvSignals) :
    Except String LoggerState :=
  EnvironmentLogger.init name level sig

/-- Mirrors `EnvironmentLogger.set_trace_id`. -/
def EnvironmentLogger.set_trace_id (st : LoggerState) (trace_id : String) : LoggerState :=
  { st with current_trace_id := some trace_id }

/-- Mirrors `EnvironmentLogger.clear_trace_id`. -/
def EnvironmentLogger.clear_trace_id (st : LoggerState) : LoggerState :=
  { st with current_trace_id := none }

/-- Python `str.zfill`: left-pad with `'0'` up to the requested width. -/
def zfill (s : String) (width : Nat) : String :=
  if s.length ≥ width then s
  else String.mk (List.replicate (width - s.length) '0') ++ s

/-- Mirrors `setup_trace_id` of `trace_utils.py`.  The ambient values
`os.getpid()`, `socket.gethostname()` and `str(uuid.uuid4())` are parameters
of the embedding; the function assembles the f-string
`f"{pid}@{hostname}/{guid}-{zero_pad}"` with `zero_pad = '0'.zfill(16)`,
stores it via `set_trace_id`, and returns it. -/
def setup_trace_id (pid : Nat) (hostname : String) (guid : String)
    (st : LoggerState) : String × LoggerState :=
  let zero_pad := zfill "0" 16
  let trace_id := toString pid ++ "@" ++ hostname ++ "/" ++ guid ++ "-" ++ zero_pad
  (trace_id, EnvironmentLogger.set_trace_id st trace_id)


/-- A Python exception value as seen by the formatter: a type name, the
`str(...)` rendering of the exception, and an optional `__cause__` link
(`raise ... from ...`). -/
inductive PyExc where
  | base (typeName : String) (msg : String)
  | chained (typeName : String) (msg : String) (cause : PyExc)
deriving DecidableEq, Repr

/-- The `__name__` of the exception's type. -/
def PyExc.typeName : PyExc → String
  | .base t _ => t
  | .chained t _ _ => t

/-- The `str(...)` rendering of the exception. -/
def PyExc.msg : PyExc → String
  | .base _ m => m
  | .chained _ m _ => m

/-- Whether the exception has no `__cause__` link. -/
def PyExc.hasNoCause : PyExc → Bool
  | .base _ _ => true
  | .chained _ _ _ => false

/-- The `while root_exc is not None and root_exc.__cause__:` loop of
`CustomFormatter.format`: follow `__cause__` links to the innermost
exception. -/
def rootCause : PyExc → PyExc
  | .base t m => .base t m
  | .chained _ _ c => rootCause c

/-- The `record.exc_info` tuple when it is set: the active exception (which
is `None` for all three components when `exception()` is called outside a
handler, since `sys.exc_info()` then returns `(None, None, None)`), plus the
list of lines that `traceback.format_exception` produces for it. -/
structure ExcInfo where
  exc : Option PyExc
  tbLines : List String
deriving DecidableEq, Repr

/-- What the formatter can observe of an arbitrary Python object stored
under a key of the `extra` dict: its truthiness, and the results of
`getattr(x, 'current_trace_id', None)` and of looking up an `environment`
attribute (`none` meaning the attribute is absent, so that
`getattr(x, 'environment', 'unknown')` returns the default). -/
structure PyVal where
  truthy : Bool
  current_trace_id : Option String
  environment : Option String
deriving DecidableEq, Repr

/-- The Python `None` object as a `PyVal`: falsy, no attributes. -/
def PyVal.noneVal : PyVal := ⟨false, none, none⟩

/-- The `EnvironmentLogger` object itself as a `PyVal` (the value stored
under `'logger_instance'` by `_log_with_context`): truthy, with live
`current_trace_id` and `environment` attributes. -/
def loggerPyVal (st : LoggerState) : PyVal :=
  ⟨true, st.current_trace_id, some st.environment⟩

/-- Insert into a Python dict modelled as an association list: an existing
key keeps its position and gets the new value, a new key is appended. -/
def dictInsert (d : List (String × PyVal)) (k : String) (v : PyVal) :
    List (String × PyVal) :=
  if (d.lookup k).isSome then
    d.map (fun p => if p.1 = k then (k, v) else p)
  else d ++ [(k, v)]

/-- The dict literal `{'logger_instance': self, **kwargs}` built by
`_log_with_context` and `exception`: later keyword arguments overwrite the
`logger_instance` entry when they reuse its key. -/
def buildExtra (self : PyVal) (kwargs : List (String × PyVal)) :
    List (String × PyVal) :=
  kwargs.foldl (fun d p => dictInsert d p.1 p.2) [("logger_instance", self)]

/-- The fields of a `logging.LogRecord` that `CustomFormatter.format` reads,
plus the entries that `Logger.makeRecord` copied into `record.__dict__` from
the `extra` dict. -/
structure LogRecord where
  name : String
  levelname : String
  msg : String
  module : String
  funcName : String
  lineno : Nat
  excInfo : Option ExcInfo
  extra : List (String × PyVal)
deriving DecidableEq, Repr

/-- The five key/value pairs added to `log_data` inside the
`if record.exc_info:` block of `CustomFormatter.format`. -/
structure ExcOut where
  exception_type : Option String
  exception_message : Option String
  root_cause_type : Option String
  root_cause_message : Option String
  tb_str : String
deriving DecidableEq, Repr

/-- The `log_data` dict assembled by `CustomFormatter.format`, before
`json.dumps`: the nine base entries, plus the five exception entries when
and only when the `if record.exc_info:` block ran. -/
structure LogData where
  timestamp : String
  level : String
  environment : String
  trace_id : Option String
  logger : String
  message : String
  module : String
  function : String
  line : Nat
  excOut : Option ExcOut
deriving DecidableEq, Repr

/-- Mirrors `CustomFormatter.format` of `logger.py`.  The wall-clock reading
`datetime.now(timezone.utc).isoformat()` is the `now` parameter.
`record.__dict__.get('logger_instance')` is the lookup in the record's extra
entries (`None` when absent); `trace_id` and `environment` are then fetched
with `getattr` defaults guarded by the object's truthiness.  The exception
block runs whenever `record.exc_info` is set (in Python even the
`(None, None, None)` tuple is truthy), takes the last 10 traceback lines,
and joins and strips them. -/
def CustomFormatter.format (now : String) (record : LogRecord) : LogData :=
  let logger_instance :=
    match record.extra.lookup "logger_instance" with
    | some v => v
    | none => PyVal.noneVal
  let trace_id :=
    if logger_instance.truthy then logger_instance.current_trace_id else none
  let environment :=
    if logger_instance.truthy then logger_instance.environment.getD "unknown"
    else "unknown"
  let excOut :=
    match record.excInfo with
    | none => none
    | some ei =>
      let tb_lines := match ei.exc with
        | some _ => ei.tbLines
        | none => []
      let tb_str :=
        if tb_lines.isEmpty then ""
        else pyStrip (String.join (tb_lines.drop (tb_lines.length - 10)))
      some { exception_type := ei.exc.map PyExc.typeName,
             exception_message := ei.exc.map PyExc.msg,
             root_cause_type := (ei.exc.map rootCause).map PyExc.typeName,
             root_cause_message := (ei.exc.map rootCause).map PyExc.msg,
             tb_str := tb_str }
  { timestamp := now, level := record.levelname, environment := environment,
    trace_id := trace_id, logger := record.name, message := record.msg,
    module := record.module, function := record.funcName,
    line := record.lineno, excOut := excOut }

/-- A JSON value as produced for the entries of `log_data`. -/
inductive JVal where
  | jnull
  | jstr (s : String)
  | jnat (n : Nat)
deriving DecidableEq, Repr

/-- Serialization of a nullable string entry of `log_data`. -/
def optStrJ : Option String → JVal
  | none => .jnull
  | some s => .jstr s

/-- The ordered key/value pairs of the `log_data` dict, as `json.dumps`
walks them: the nine base keys in insertion order, then the five exception
keys when the exception block ran. -/
def LogData.toPairs (d : LogData) : List (String × JVal) :=
  [("timestamp", .jstr d.timestamp), ("level", .jstr d.level),
   ("environment", .jstr d.environment), ("trace_id", optStrJ d.trace_id),
   ("logger", .jstr d.logger), ("message", .jstr d.message),
   ("module", .jstr d.module), ("function", .jstr d.function),
   ("line", .jnat d.line)] ++
  (match d.excOut with
   | none => []
   | some e =>
     [("exception_type", optStrJ e.exception_type),
      ("exception_message", optStrJ e.exception_message),
      ("root_cause_type", optStrJ e.root_cause_type),
      ("root_cause_message", optStrJ e.root_cause_message),
      ("traceback", .jstr e.tb_str)])

/-- The record attributes that `Logger.makeRecord` refuses to overwrite from
the `extra` dict (the names already in `record.__dict__`, plus `message` and
`asctime`); a clash raises `KeyError`. -/
def reservedRecordAttrs : List String :=
  ["name", "msg", "args", "levelname", "levelno", "pathname", "filename",
   "module", "exc_info", "exc_text", "stack_info", "lineno", "funcName",
   "created", "msecs", "relativeCreated", "thread", "threadName",
   "processName", "process", "taskName", "message", "asctime"]

/-- The five bound logger methods that `_log_with_context` can reach through
`getattr(self.logger, level.lower())`, with their numeric levels; any other
level string raises `AttributeError` at the `getattr`. -/
def loggerMethods : List (String × Nat) :=
  [("DEBUG", 10), ("INFO", 20), ("WARNING", 30), ("ERROR", 40),
   ("CRITICAL", 50)]

/-- The call-site metadata that the `logging` machinery records
(`record.module`, `record.funcName`, `record.lineno`). -/
structure CallSite where
  module : String
  funcName : String
  lineno : Nat
deriving DecidableEq, Repr

/-- One call into the underlying `logging.Logger`: method resolution, the
`isEnabledFor` threshold test (a filtered call emits nothing and returns
normally, modelled as `.ok none`), the `makeRecord` clash check on the
`extra` dict (raising `KeyError`), then record construction and formatting
by `CustomFormatter.format`. -/
def logging_call (st : LoggerState) (level : String) (message : String)
    (excInfo : Option ExcInfo) (extra : List (String × PyVal))
    (site : CallSite) (now : String) : Except String (Option LogData) :=
  match loggerMethods.lookup level with
  | none => .error "AttributeError"
  | some levelNo =>
    if levelNo < st.level then .ok none
    else if extra.any (fun p => reservedRecordAttrs.contains p.1) then
      .error "KeyError"
    else
      .ok (some (CustomFormatter.format now
        { name := st.name, levelname := level, msg := message,
          module := site.module, funcName := site.funcName,
          lineno := site.lineno, excInfo := excInfo, extra := extra }))

/-- Mirrors `EnvironmentLogger._log_with_context`: compute the effective
trace id with the truthy `or`, save the old one, install the effective one,
build the `extra` dict, perform the logging call, and restore the old id.
The restore line is only reached when the logging call did not raise; on a
raise the temporarily installed id is left in place. -/
def _log_with_context (st : LoggerState) (level : String) (message : String)
    (trace_id : Option String) (kwargs : List (String × PyVal))
    (site : CallSite) (now : String) :
    Except String (Option LogData) × LoggerState :=
  let effective_trace_id := pyOr trace_id st.current_trace_id
  let old_trace_id := st.current_trace_id
  let st1 := { st with current_trace_id := effective_trace_id }
  let extra := buildExtra (loggerPyVal st1) kwargs
  match logging_call st1 level message none extra site now with
  | .error e => (.error e, st1)
  | .ok r => (.ok r, { st1 with current_trace_id := old_trace_id })

/-- Mirrors `EnvironmentLogger.debug`. -/
def EnvironmentLogger.debug (st : LoggerState) (message : String)
    (trace_id : Option String) (kwargs : List (String × PyVal))
    (site : CallSite) (now : String) :
    Except String (Option LogData) × LoggerState :=
  _log_with_context st "DEBUG" message trace_id kwargs site now

/-- Mirrors `EnvironmentLogger.info`. -/
def EnvironmentLogger.info (st : LoggerState) (message : String)
    (trace_id : Option String) (kwargs : List (String × PyVal))
    (site : CallSite) (now : String) :
    Except String (Option LogData) × LoggerState :=
  _log_with_context st "INFO" message trace_id kwargs site now

/-- Mirrors `EnvironmentLogger.warning`. -/
def EnvironmentLogger.warning (st : LoggerState) (message : String)
    (trace_id : Option String) (kwargs : List (String × PyVal))
    (site : CallSite) (now : String) :
    Except String (Option LogData) × LoggerState :=
  _log_with_context st "WARNING" message trace_id kwargs site now

/-- Mirrors `EnvironmentLogger.error`. -/
def EnvironmentLogger.error (st : LoggerState) (message : String)
    (trace_id : Option String) (kwargs : List (String × PyVal))
    (site : CallSite) (now : String) :
    Except String (Option LogData) × LoggerState :=
  _log_with_context st "ERROR" message trace_id kwargs site now

/-- Mirrors `EnvironmentLogger.critical`. -/
def EnvironmentLogger.critical (st : LoggerState) (message : String)
    (trace_id : Option String) (kwargs : List (String × PyVal))
    (site : CallSite) (now : String) :
    Except String (Option LogData) × LoggerState :=
  _log_with_context st "CRITICAL" message trace_id kwargs site now

/-- Mirrors `EnvironmentLogger.exception`: the same save/install/restore
sequence as `_log_with_context`, but the underlying call is
`self.logger.exception(message, extra=extra)`, which logs at `ERROR` with
`exc_info=True`, so `record.exc_info` is always set (to the active exception
or to the `(None, None, None)` tuple). -/
def EnvironmentLogger.exception (st : LoggerState) (message : String)
    (trace_id : Option String) (kwargs : List (String × PyVal))
    (activeExc : Option PyExc) (tbLines : List String)
    (site : CallSite) (now : String) :
    Except String (Option LogData) × LoggerState :=
  let effective_trace_id := pyOr trace_id st.current_trace_id
  let old_trace_id := st.current_trace_id
  let st1 := { st with current_trace_id := effective_trace_id }
  let extra := buildExtra (loggerPyVal st1) kwargs
  match logging_call st1 "ERROR" message (some ⟨activeExc, tbLines⟩) extra site now with
  | .error e => (.error e, st1)
  | .ok r => (.ok r, { st1 with current_trace_id := old_trace_id })

/-- Projection: the record emitted by a logger call, when one was emitted. -/
def emittedData : Except String (Option LogData) × LoggerState → Option LogData
  | (.ok (some d), _) => some d
  | _ => none

/-- Projection: whether a logger call returned without raising. -/
def callReturned : Except String (Option LogData) × LoggerState → Bool
  | (.ok _, _) => true
  | (.error _, _) => false

/-- Decimal digits of a natural number, as `json.dumps` prints an `int`. -/
def natDecimalChars (n : Nat) : List Char :=
  if n < 10 then [Nat.digitChar n]
  else natDecimalChars (n / 10) ++ [Nat.digitChar (n % 10)]
decreasing_by exact Nat.div_lt_self (by omega) (by omega)

/-- The `\uXXXX` escape that `json.dumps` uses for the remaining control
characters: backslash-u followed by the four hex digits of the code point. -/
def uEscape (n : Nat) : List Char :=
  ['\\', 'u'] ++ ([4096, 256, 16, 1].map (fun d => Nat.digitChar (n / d % 16)))

/-- How `json.dumps(..., ensure_ascii=False)` escapes one character of a
string: backslash, double quote, and the control characters; everything else
(non-ASCII included) is passed through literally. -/
def escapeChars (c : Char) : List Char :=
  if c = '\\' then ['\\', '\\']
  else if c = '"' then ['\\', '"']
  else if c = '\x08' then ['\\', 'b']
  else if c = '\x0c' then ['\\', 'f']
  else if c = '\n' then ['\\', 'n']
  else if c = '\r' then ['\\', 'r']
  else if c = '\t' then ['\\', 't']
  else if c.toNat < 32 then uEscape c.toNat
  else [c]

/-- A JSON string literal: quote, escaped characters, quote. -/
def renderString (s : String) : List Char :=
  '"' :: (s.toList.map escapeChars).flatten ++ ['"']

/-- One JSON value, rendered. -/
def renderJVal : JVal → List Char
  | .jnull => ['n', 'u', 'l', 'l']
  | .jstr s => renderString s
  | .jnat n => natDecimalChars n

/-- The comma-and-space separated entries of a JSON object, with the default
`json.dumps` separators `", "` and `": "`. -/
def renderEntries : List (String × JVal) → List Char
  | [] => []
  | [(k, v)] => renderString k ++ [':', ' '] ++ renderJVal v
  | (k, v) :: rest =>
    renderString k ++ [':', ' '] ++ renderJVal v ++ [',', ' '] ++ renderEntries rest

/-- Mirrors `json.dumps` on the (string-keyed) `log_data` dict with default
separators and `ensure_ascii=False`. -/
def jsonDumps (pairs : List (String × JVal)) : String :=
  String.mk ('\x7b' :: (renderEntries pairs ++ ['\x7d']))

/-- The trace-id selection rule in the spec's (amended) words: an explicitly
supplied, non-empty `trace_id` argument wins; otherwise the logger's current
TraceContext value is used (null when unset).  Stated separately from the
code's `pyOr` so the two can be compared. -/
def specTraceIdRule (trace_id cur : Option String) : Option String :=
  match trace_id with
  | some t => if t = "" then cur else some t
  | none => cur

/-- Projection: whether `get_logger` / `EnvironmentLogger.__init__` returned
a logger rather than raising. -/
def loggerCreated : Except String LoggerState → Bool
  | .ok _ => true
  | .error _ => false

theorem digitChar_small_ne_newline (m : Nat) (hm : m < 16) :
    Nat.digitChar m ≠ '\n' := by
  interval_cases m <;> decide

theorem newline_ne_digitChar (m : Nat) (hm : m < 16) : '\n' ≠ Nat.digitChar m :=
  (digitChar_small_ne_newline m hm).symm

theorem natDecimalChars_no_newline (n : Nat) : '\n' ∉ natDecimalChars n := by
  induction n using Nat.strong_induction_on with
  | _ n ih =>
    rw [natDecimalChars]
    split
    next hlt =>
      simp only [List.mem_singleton]
      exact newline_ne_digitChar n (by omega)
    next hge =>
      intro h
      rcases List.mem_append.1 h with h1 | h2
      · exact ih (n / 10) (Nat.div_lt_self (by omega) (by omega)) h1
      · rw [List.mem_singleton] at h2
        exact newline_ne_digitChar (n % 10) (by omega) h2

theorem escapeChars_no_newline (c : Char) : '\n' ∉ escapeChars c := by
  unfold escapeChars
  repeat' split
  · decide
  · decide
  · decide
  · decide
  · decide
  · decide
  · decide
  · intro h
    rcases List.mem_append.1 h with h1 | h2
    · exact absurd h1 (by decide)
    rcases List.mem_map.1 h2 with ⟨dv, _, he⟩
    exact digitChar_small_ne_newline _ (Nat.mod_lt _ (by omega)) he
  · intro h
    rw [List.mem_singleton] at h
    exact absurd h.symm (by assumption)

theorem renderString_no_newline (s : String) : '\n' ∉ renderString s := by
  unfold renderString
  intro h
  rcases List.mem_cons.1 h with h1 | h2
  · exact absurd h1 (by decide)
  rcases List.mem_append.1 h2 with h3 | h4
  · rcases List.mem_flatten.1 h3 with ⟨l, hl, hc⟩
    rcases List.mem_map.1 hl with ⟨c, _, rfl⟩
    exact escapeChars_no_newline c hc
  · rw [List.mem_singleton] at h4
    exact absurd h4 (by decide)

theorem renderJVal_no_newline (v : JVal) : '\n' ∉ renderJVal v := by
  cases v with
  | jnull => simp [renderJVal]
  | jstr s => exact renderString_no_newline s
  | jnat n => exact natDecimalChars_no_newline n

theorem renderEntries_no_newline (pairs : List (String × JVal)) :
    '\n' ∉ renderEntries pairs := by
  induction pairs with
  | nil => simp [renderEntries]
  | cons p rest ih =>
    obtain ⟨k, v⟩ := p
    cases rest with
    | nil =>
      intro h
      rw [renderEntries] at h
      rcases List.mem_append.1 h with h1 | h2
      · rcases List.mem_append.1 h1 with h3 | h4
        · exact renderString_no_newline k h3
        · exact absurd h4 (by decide)
      · exact renderJVal_no_newline v h2
    | cons q rest' =>
      intro h
      rw [renderEntries] at h
      case x_1 => simp
      rcases List.mem_append.1 h with h1 | h2
      · rcases List.mem_append.1 h1 with h3 | h4
        · rcases List.mem_append.1 h3 with h5 | h6
          · rcases List.mem_append.1 h5 with h7 | h8
            · exact renderString_no_newline k h7
            · exact absurd h8 (by decide)
          · exact renderJVal_no_newline v h6
        · exact absurd h4 (by decide)
      · exact ih h2

theorem jsonDumps_single_line (pairs : List (String × JVal)) :
    '\n' ∉ (jsonDumps pairs).toList := by
  intro h
  rcases List.mem_cons.1 h with h1 | h2
  · exact absurd h1 (by decide)
  rcases List.mem_append.1 h2 with h3 | h4
  · exact renderEntries_no_newline pairs h3
  · rw [List.mem_singleton] at h4
    exact absurd h4 (by decide)

theorem pyOr_eq_specTraceIdRule (a b : Option String) :
    pyOr a b = specTraceIdRule a b := by
  cases a with
  | none => rfl
  | some t =>
    by_cases h : t = "" <;>
      simp [pyOr, strTruthy, specTraceIdRule, h]

theorem lookup_map_overwrite (k kx : String) (v : PyVal) (h : k ≠ kx)
    (d : List (String × PyVal)) :
    (d.map (fun p => if p.1 = kx then (kx, v) else p)).lookup k = d.lookup k := by
  induction d with
  | nil => rfl
  | cons p rest ih =>
    obtain ⟨pk, pv⟩ := p
    simp only [List.map_cons]
    by_cases hp : pk = kx
    · rw [if_pos hp]
      simp only [List.lookup]
      have h1 : (k == kx) = false := beq_eq_false_iff_ne.2 h
      have h2 : (k == pk) = false := by rw [hp]; exact h1
      rw [h1, h2]
      exact ih
    · rw [if_neg hp]
      simp only [List.lookup]
      cases hkp : k == pk
      · exact ih
      · rfl

theorem lookup_append_single_ne (k kx : String) (v : PyVal) (h : k ≠ kx)
    (d : List (String × PyVal)) :
    (d ++ [(kx, v)]).lookup k = d.lookup k := by
  induction d with
  | nil =>
    simp only [List.nil_append, List.lookup]
    rw [beq_eq_false_iff_ne.2 h]
  | cons p rest ih =>
    obtain ⟨pk, pv⟩ := p
    simp only [List.cons_append, List.lookup]
    cases hkp : k == pk
    · exact ih
    · rfl

theorem dictInsert_lookup_ne (d : List (String × PyVal)) (k kx : String)
    (v : PyVal) (h : k ≠ kx) : (dictInsert d kx v).lookup k = d.lookup k := by
  unfold dictInsert
  split
  · exact lookup_map_overwrite k kx v h d
  · exact lookup_append_single_ne k kx v h d

theorem foldl_dictInsert_lookup (k : String) (self : PyVal)
    (kwargs : List (String × PyVal)) :
    ∀ d : List (String × PyVal), (∀ p ∈ kwargs, p.1 ≠ k) →
      d.lookup k = some self →
      (kwargs.foldl (fun d p => dictInsert d p.1 p.2) d).lookup k = some self := by
  induction kwargs with
  | nil => intro d _ hd; simpa using hd
  | cons p rest ih =>
    intro d h hd
    simp only [List.foldl_cons]
    refine ih (dictInsert d p.1 p.2) ?_ ?_
    · intro q hq
      exact h q (List.mem_cons_of_mem p hq)
    · have hp : k ≠ p.1 := Ne.symm (h p (List.mem_cons_self p rest))
      rw [dictInsert_lookup_ne d k p.1 p.2 hp]
      exact hd

theorem buildExtra_lookup (self : PyVal) (kwargs : List (String × PyVal))
    (h : ∀ p ∈ kwargs, p.1 ≠ "logger_instance") :
    (buildExtra self kwargs).lookup "logger_instance" = some self := by
  unfold buildExtra
  exact foldl_dictInsert_lookup "logger_instance" self kwargs
    [("logger_instance", self)] h (by simp [List.lookup])

theorem format_trace_id (now : String) (r : LogRecord) (self : PyVal)
    (h : r.extra.lookup "logger_instance" = some self) (ht : self.truthy = true) :
    (CustomFormatter.format now r).trace_id = self.current_trace_id := by
  simp [CustomFormatter.format, h, ht]

theorem format_environment (now : String) (r : LogRecord) (self : PyVal)
    (h : r.extra.lookup "logger_instance" = some self) (ht : self.truthy = true) :
    (CustomFormatter.format now r).environment = self.environment.getD "unknown" := by
  simp [CustomFormatter.format, h, ht]

theorem format_congr (now : String) (r1 r2 : LogRecord)
    (h1 : r1.name = r2.name) (h2 : r1.levelname = r2.levelname)
    (h3 : r1.msg = r2.msg) (h4 : r1.module = r2.module)
    (h5 : r1.funcName = r2.funcName) (h6 : r1.lineno = r2.lineno)
    (h7 : r1.excInfo = r2.excInfo)
    (hx : r1.extra.lookup "logger_instance" = r2.extra.lookup "logger_instance") :
    CustomFormatter.format now r1 = CustomFormatter.format now r2 := by
  cases r1
  cases r2
  simp only at h1 h2 h3 h4 h5 h6 h7 hx
  subst h1 h2 h3 h4 h5 h6 h7
  simp [CustomFormatter.format, hx]

theorem emittedData_log_with_context (st : LoggerState) (level m : String)
    (tid : Option String) (kwargs : List (String × PyVal)) (site : CallSite)
    (now : String) :
    emittedData (_log_with_context st level m tid kwargs site now) =
      (match loggerMethods.lookup level with
       | none => none
       | some levelNo =>
         if levelNo < st.level then none
         else if (buildExtra
             (loggerPyVal { st with current_trace_id := pyOr tid st.current_trace_id })
             kwargs).any (fun p => reservedRecordAttrs.contains p.1) then none
         else some (CustomFormatter.format now
           { name := st.name, levelname := level, msg := m, module := site.module,
             funcName := site.funcName, lineno := site.lineno, excInfo := none,
             extra := buildExtra
               (loggerPyVal { st with current_trace_id := pyOr tid st.current_trace_id })
               kwargs })) := by
  cases hl : loggerMethods.lookup level with
  | none => simp [_log_with_context, logging_call, hl, emittedData]
  | some levelNo =>
    simp only [_log_with_context, logging_call, hl]
    by_cases hA : levelNo < st.level
    · simp only [if_pos hA]
      simp [emittedData]
    · simp only [if_neg hA]
      by_cases hB : ((buildExtra
          (loggerPyVal { st with current_trace_id := pyOr tid st.current_trace_id })
          kwargs).any (fun p => reservedRecordAttrs.contains p.1)) = true
      · simp only [if_pos hB]
        simp [emittedData]
      · simp only [if_neg hB]
        simp [emittedData]

theorem snd_log_with_context (st : LoggerState) (level m : String)
    (tid : Option String) (kwargs : List (String × PyVal)) (site : CallSite)
    (now : String)
    (h : callReturned (_log_with_context st level m tid kwargs site now) = true) :
    (_log_with_context st level m tid kwargs site now).2.current_trace_id =
      st.current_trace_id := by
  simp only [_log_with_context] at h ⊢
  rcases hcall : logging_call
      { st with current_trace_id := pyOr tid st.current_trace_id } level m none
      (buildExtra (loggerPyVal { st with current_trace_id := pyOr tid st.current_trace_id }) kwargs)
      site now with e | r
  · rw [hcall] at h
    simp [callReturned] at h
  · simp [hcall]

theorem emittedData_exception (st : LoggerState) (m : String)
    (tid : Option String) (kwargs : List (String × PyVal))
    (activeExc : Option PyExc) (tbLines : List String) (site : CallSite)
    (now : String) :
    emittedData
      (EnvironmentLogger.exception st m tid kwargs activeExc tbLines site now) =
      (if 40 < st.level then none
       else if (buildExtra
           (loggerPyVal { st with current_trace_id := pyOr tid st.current_trace_id })
           kwargs).any (fun p => reservedRecordAttrs.contains p.1) then none
       else some (CustomFormatter.format now
         { name := st.name, levelname := "ERROR", msg := m, module := site.module,
           funcName := site.funcName, lineno := site.lineno,
           excInfo := some ⟨activeExc, tbLines⟩,
           extra := buildExtra
             (loggerPyVal { st with current_trace_id := pyOr tid st.current_trace_id })
             kwargs })) := by
  have hl : loggerMethods.lookup "ERROR" = some 40 := by rfl
  simp only [EnvironmentLogger.exception, logging_call, hl]
  by_cases hA : 40 < st.level
  · simp only [if_pos hA]
    simp [emittedData]
  · simp only [if_neg hA]
    by_cases hB : ((buildExtra
        (loggerPyVal { st with current_trace_id := pyOr tid st.current_trace_id })
        kwargs).any (fun p => reservedRecordAttrs.contains p.1)) = true
    · simp only [if_pos hB]
      simp [emittedData]
    · simp only [if_neg hB]
      simp [emittedData]

theorem snd_exception (st : LoggerState) (m : String) (tid : Option String)
    (kwargs : List (String × PyVal)) (activeExc : Option PyExc)
    (tbLines : List String) (site : CallSite) (now : String)
    (h : callReturned
      (EnvironmentLogger.exception st m tid kwargs activeExc tbLines site now) = true) :
    (EnvironmentLogger.exception st m tid kwargs activeExc tbLines site now).2.current_trace_id =
      st.current_trace_id := by
  simp only [EnvironmentLogger.exception] at h ⊢
  rcases hcall : logging_call
      { st with current_trace_id := pyOr tid st.current_trace_id } "ERROR" m
      (some ⟨activeExc, tbLines⟩)
      (buildExtra (loggerPyVal { st with current_trace_id := pyOr tid st.current_trace_id }) kwargs)
      site now with e | r
  · rw [hcall] at h
    simp [callReturned] at h
  · simp [hcall]

theorem lookup_mem_values {α β : Type} [BEq α] (l : List (α × β)) (k : α)
    (e : β) (h : l.lookup k = some e) : e ∈ l.map Prod.snd := by
  induction l with
  | nil => cases h
  | cons p rest ih =>
    obtain ⟨pk, pv⟩ := p
    simp only [List.lookup] at h
    cases hk : k == pk
    · rw [hk] at h
      exact List.mem_cons_of_mem _ (ih h)
    · rw [hk] at h
      cases h
      simp

theorem detectFromSources_mem (l : List (Option String)) :
    detectFromSources l ∈ ["development", "staging", "hotfixes", "production"] := by
  induction l with
  | nil => simp [detectFromSources]
  | cons v rest ih =>
    simp only [detectFromSources]
    by_cases hv : strTruthy v = true
    · simp only [if_pos hv]
      by_cases hl : containsSub (pyLower (v.getD "")) "lambda" = true
      · simp only [if_pos hl]
        repeat' split
        all_goals simp
      · simp only [if_neg hl]
        cases hm : ENV_MAPPING.lookup (pyStrip (pyLower (v.getD ""))) with
        | none => simp
        | some e =>
          have hv2 := lookup_mem_values ENV_MAPPING _ e hm
          simpa [ENV_MAPPING] using hv2
    · simp only [if_neg hv]
      exact ih

/-- Claim C5, counterexample: the claim says the direct input `"STAGE"`
classifies to staging, but the exact mapping has no `"stage"` key, so the
classifier returns `"development"`. -/
theorem environment_mapping_counterexample :
    detect_environment (some "STAGE") none none none = "development" ∧
    ("development" : String) ≠ "staging" := by
  exact ⟨by decide, by decide⟩

/-- Claim C5 (amended): the classifier maps `"production"` to production,
`"Hotfixes"` to hotfixes, and unknown values to development, but `"STAGE"`
also maps to development because direct-path matching is an exact lookup of
the lowercase, trimmed value in `ENV_MAPPING`, which has no `"stage"` key;
the classifier is total and always returns one of the four environments
(never raises). -/
theorem environment_mapping :
    detect_environment (some "production") none none none = "production" ∧
    detect_environment (some "STAGE") none none none = "development" ∧
    detect_environment (some "Hotfixes") none none none = "hotfixes" ∧
    detect_environment (some "unknown-value") none none none = "development" ∧
    (∀ a b c dd : Option String,
      detect_environment a b c dd ∈
        ["development", "staging", "hotfixes", "production"]) := by
  refine ⟨by decide, by decide, by decide, by decide, ?_⟩
  intro a b c dd
  exact detectFromSources_mem _

/-- Claim C6: on the platform-marker path (a signal whose lowercase form
contains `"lambda"`), a value containing both `"staging"` and `"prod"`
resolves to production, because the prod/production sub-pattern is checked
before staging/stage. -/
theorem platform_marker_precedence (v : String)
    (hL : containsSub (pyLower v) "lambda" = true)
    (hS : containsSub (pyLower v) "staging" = true)
    (hP : containsSub (pyLower v) "prod" = true) :
    detect_environment none none none (some v) = "production" := by
  have hv : v ≠ "" := by
    intro he
    subst he
    exact absurd hL (by decide)
  have hv' : strTruthy (some v) = true := by
    simp only [strTruthy, bne_iff_ne, ne_eq]
    exact hv
  simp [detect_environment, detectFromSources, strTruthy, hv', hL, hP, Option.getD]
  intro he
  exact absurd he hv

theorem platform_marker_precedence_witness :
    containsSub (pyLower "my-lambda-staging-prod") "lambda" = true ∧
    containsSub (pyLower "my-lambda-staging-prod") "staging" = true ∧
    containsSub (pyLower "my-lambda-staging-prod") "prod" = true ∧
    detect_environment none none none (some "my-lambda-staging-prod") = "production" :=
  ⟨by decide, by decide, by decide,
   platform_marker_precedence "my-lambda-staging-prod" (by decide) (by decide) (by decide)⟩

/-- Claim C7: `setup_trace_id` returns the string
`pid@hostname/guid-<16 zeros>` (the zero-padded suffix is exactly sixteen
`'0'` characters) and stores that same string as the logger's current
TraceContext value. -/
theorem setup_trace_id_shape (pid : Nat) (hostname guid : String)
    (st : LoggerState) :
    (setup_trace_id pid hostname guid st).1 =
      toString pid ++ "@" ++ hostname ++ "/" ++ guid ++ "-" ++ "0000000000000000" ∧
    (zfill "0" 16).toList = List.replicate 16 '0' ∧
    (setup_trace_id pid hostname guid st).2.current_trace_id =
      some (setup_trace_id pid hostname guid st).1 := by
  have hz : zfill "0" 16 = "0000000000000000" := by decide
  refine ⟨?_, by decide, rfl⟩
  simp only [setup_trace_id, hz]

/-- Claim C8: `get_logger(name, level)` returns a configured logger exactly
when the uppercased level name is one of the level names the `logging`
module recognizes (the five documented ones `DEBUG/INFO/WARNING/ERROR/
CRITICAL` together with the framework aliases `WARN/FATAL/NOTSET`); for any
other level string, construction raises (an `AttributeError` at the
attribute lookup, or a `ValueError` from `setLevel` for the non-level
attribute `BASIC_FORMAT`) instead of silently downgrading. -/
theorem get_logger_level_validation (name level : String) (sig : EnvSignals) :
    loggerCreated (get_logger name level sig) = true ↔
      pyUpper level ∈
        ["CRITICAL", "FATAL", "ERROR", "WARNING", "WARN", "INFO", "DEBUG",
         "NOTSET"] := by
  have hbf : setLevelCheck (LoggingAttr.strAttr "%(levelname)s:%(name)s:%(message)s") =
      Except.error "ValueError: Unknown level" := rfl
  unfold get_logger EnvironmentLogger.init getattrLogging
  by_cases h1 : pyUpper level = "CRITICAL"
  · simp [if_pos h1, setLevelCheck, loggerCreated, h1]
  by_cases h2 : pyUpper level = "FATAL"
  · simp [if_neg h1, if_pos h2, setLevelCheck, loggerCreated, h2]
  by_cases h3 : pyUpper level = "ERROR"
  · simp [if_neg h1, if_neg h2, if_pos h3, setLevelCheck, loggerCreated, h3]
  by_cases h4 : pyUpper level = "WARNING"
  · simp [if_neg h1, if_neg h2, if_neg h3, if_pos h4, setLevelCheck,
      loggerCreated, h4]
  by_cases h5 : pyUpper level = "WARN"
  · simp [if_neg h1, if_neg h2, if_neg h3, if_neg h4, if_pos h5, setLevelCheck,
      loggerCreated, h5]
  by_cases h6 : pyUpper level = "INFO"
  · simp [if_neg h1, if_neg h2, if_neg h3, if_neg h4, if_neg h5, if_pos h6,
      setLevelCheck, loggerCreated, h6]
  by_cases h7 : pyUpper level = "DEBUG"
  · simp [if_neg h1, if_neg h2, if_neg h3, if_neg h4, if_neg h5, if_neg h6,
      if_pos h7, setLevelCheck, loggerCreated, h7]
  by_cases h8 : pyUpper level = "NOTSET"
  · simp [if_neg h1, if_neg h2, if_neg h3, if_neg h4, if_neg h5, if_neg h6,
      if_neg h7, if_pos h8, setLevelCheck, loggerCreated, h8]
  by_cases h9 : pyUpper level = "BASIC_FORMAT"
  · simp [if_neg h1, if_neg h2, if_neg h3, if_neg h4, if_neg h5, if_neg h6,
      if_neg h7, if_neg h8, if_pos h9, hbf, loggerCreated,
      h1, h2, h3, h4, h5, h6, h7, h8]
  · simp [if_neg h1, if_neg h2, if_neg h3, if_neg h4, if_neg h5, if_neg h6,
      if_neg h7, if_neg h8, if_neg h9, loggerCreated,
      h1, h2, h3, h4, h5, h6, h7, h8]

theorem emitted_trace_log_with_context (st : LoggerState) (level m : String)
    (tid : Option String) (kwargs : List (String × PyVal)) (site : CallSite)
    (now : String) (d : LogData)
    (hk : ∀ p ∈ kwargs, p.1 ≠ "logger_instance")
    (hd : emittedData (_log_with_context st level m tid kwargs site now) = some d) :
    d.trace_id = pyOr tid st.current_trace_id := by
  rw [emittedData_log_with_context] at hd
  cases hl : loggerMethods.lookup level with
  | none =>
    simp only [hl] at hd
    exact absurd hd (by simp)
  | some ln =>
    simp only [hl] at hd
    by_cases hA : ln < st.level
    · rw [if_pos hA] at hd; cases hd
    · rw [if_neg hA] at hd
      by_cases hB : ((buildExtra
          (loggerPyVal { st with current_trace_id := pyOr tid st.current_trace_id })
          kwargs).any (fun p => reservedRecordAttrs.contains p.1)) = true
      · rw [if_pos hB] at hd; cases hd
      · rw [if_neg hB] at hd
        injection hd with hd
        rw [← hd]
        rw [format_trace_id now _
          (loggerPyVal { st with current_trace_id := pyOr tid st.current_trace_id })
          (buildExtra_lookup _ kwargs hk) rfl]
        rfl

theorem emitted_trace_exception (st : LoggerState) (m : String)
    (tid : Option String) (kwargs : List (String × PyVal))
    (activeExc : Option PyExc) (tbLines : List String) (site : CallSite)
    (now : String) (d : LogData)
    (hk : ∀ p ∈ kwargs, p.1 ≠ "logger_instance")
    (hd : emittedData
      (EnvironmentLogger.exception st m tid kwargs activeExc tbLines site now) = some d) :
    d.trace_id = pyOr tid st.current_trace_id := by
  rw [emittedData_exception] at hd
  by_cases hA : 40 < st.level
  · rw [if_pos hA] at hd; cases hd
  · rw [if_neg hA] at hd
    by_cases hB : ((buildExtra
        (loggerPyVal { st with current_trace_id := pyOr tid st.current_trace_id })
        kwargs).any (fun p => reservedRecordAttrs.contains p.1)) = true
    · rw [if_pos hB] at hd; cases hd
    · rw [if_neg hB] at hd
      injection hd with hd
      rw [← hd]
      rw [format_trace_id now _
        (loggerPyVal { st with current_trace_id := pyOr tid st.current_trace_id })
        (buildExtra_lookup _ kwargs hk) rfl]
      rfl

/-- Claim C1, counterexample: the claim's selection rule fails in two ways.
First, supplying the empty string while the current trace id is `"X"` emits
`"X"`, not `""` (the `or` fallback treats `""` as absent).  Second, even a
supplied non-empty `"T"` is not emitted when a keyword argument named
`logger_instance` is also passed: the kwarg overwrites the logger reference
in the `extra` dict and the record carries the spoofed object's trace id
`"EVIL2"` instead. -/
theorem trace_id_selection_counterexample :
    ((emittedData (EnvironmentLogger.info
      ⟨"RMRForecast", 20, "development", some "X"⟩ "m" (some "") []
      ⟨"mod", "fn", 1⟩ "ts")).map LogData.trace_id = some (some "X") ∧
    some (some "X") ≠ some (some ("" : String))) ∧
    ((emittedData (EnvironmentLogger.info
      ⟨"RMRForecast", 20, "development", some "X"⟩ "m" (some "T")
      [("logger_instance", ⟨true, some "EVIL2", some "production"⟩)]
      ⟨"mod", "fn", 1⟩ "ts")).map LogData.trace_id = some (some "EVIL2") ∧
    some (some "EVIL2") ≠ some (some "T")) :=
  ⟨⟨by decide, by decide⟩, ⟨by decide, by decide⟩⟩

/-- Claim C1 (amended): for every leveled log call and for `exception` whose
keyword arguments do not reuse the reserved `logger_instance` key, the
`trace_id` field of the emitted record is the explicitly supplied `trace_id`
argument if one was given and it is non-empty; otherwise it is the logger's
current TraceContext value, which is null when unset (`specTraceIdRule`). -/
theorem trace_id_selection_rule (st : LoggerState) (m : String)
    (tid : Option String) (kwargs : List (String × PyVal)) (site : CallSite)
    (now : String) (activeExc : Option PyExc) (tb : List String) (d : LogData)
    (hk : ∀ p ∈ kwargs, p.1 ≠ "logger_instance") :
    (emittedData (EnvironmentLogger.debug st m tid kwargs site now) = some d →
      d.trace_id = specTraceIdRule tid st.current_trace_id) ∧
    (emittedData (EnvironmentLogger.info st m tid kwargs site now) = some d →
      d.trace_id = specTraceIdRule tid st.current_trace_id) ∧
    (emittedData (EnvironmentLogger.warning st m tid kwargs site now) = some d →
      d.trace_id = specTraceIdRule tid st.current_trace_id) ∧
    (emittedData (EnvironmentLogger.error st m tid kwargs site now) = some d →
      d.trace_id = specTraceIdRule tid st.current_trace_id) ∧
    (emittedData (EnvironmentLogger.critical st m tid kwargs site now) = some d →
      d.trace_id = specTraceIdRule tid st.current_trace_id) ∧
    (emittedData (EnvironmentLogger.exception st m tid kwargs activeExc tb site now) = some d →
      d.trace_id = specTraceIdRule tid st.current_trace_id) := by
  rw [← pyOr_eq_specTraceIdRule]
  exact ⟨emitted_trace_log_with_context st "DEBUG" m tid kwargs site now d hk,
         emitted_trace_log_with_context st "INFO" m tid kwargs site now d hk,
         emitted_trace_log_with_context st "WARNING" m tid kwargs site now d hk,
         emitted_trace_log_with_context st "ERROR" m tid kwargs site now d hk,
         emitted_trace_log_with_context st "CRITICAL" m tid kwargs site now d hk,
         emitted_trace_exception st m tid kwargs activeExc tb site now d hk⟩

theorem trace_id_selection_rule_witness :
    (∀ p ∈ ([] : List (String × PyVal)), p.1 ≠ "logger_instance") ∧
    emittedData (EnvironmentLogger.info
      ⟨"RMRForecast", 20, "development", some "X"⟩ "m" (some "T") []
      ⟨"mod", "fn", 1⟩ "ts") =
      some ⟨"ts", "INFO", "development", some "T", "RMRForecast", "m", "mod", "fn", 1, none⟩ ∧
    (⟨"ts", "INFO", "development", some "T", "RMRForecast", "m", "mod", "fn", 1,
      none⟩ : LogData).trace_id = specTraceIdRule (some "T") (some "X") :=
  ⟨by simp, by decide,
   (trace_id_selection_rule ⟨"RMRForecast", 20, "development", some "X"⟩ "m"
     (some "T") [] ⟨"mod", "fn", 1⟩ "ts" none []
     ⟨"ts", "INFO", "development", some "T", "RMRForecast", "m", "mod", "fn", 1, none⟩
     (by simp)).2.1 (by decide)⟩

/-- Claim C9, counterexample: the claim asserts unconditionally that with
`trace_id=""` the record is emitted with the current TraceContext value, but
a keyword argument named `logger_instance` overwrites the logger reference
in the `extra` dict, so the record carries the spoofed object's trace id
`"SPOOF"` instead of the current value `"X"`. -/
theorem empty_trace_id_counterexample :
    (emittedData (EnvironmentLogger.info
      ⟨"RMRForecast", 20, "development", some "X"⟩ "m" (some "")
      [("logger_instance", ⟨true, some "SPOOF", some "production"⟩)]
      ⟨"mod", "fn", 1⟩ "ts")).map LogData.trace_id = some (some "SPOOF") ∧
    some (some "SPOOF") ≠ some (some "X") :=
  ⟨by decide, by decide⟩

/-- Claim C9 (amended): passing an empty string as the explicit `trace_id`
argument does not override the current trace id: for every leveled log call
and for `exception` whose keyword arguments do not reuse the reserved
`logger_instance` key, the emitted record carries the logger's current
TraceContext value (null when unset). -/
theorem empty_trace_id_no_override (st : LoggerState) (m : String)
    (kwargs : List (String × PyVal)) (site : CallSite) (now : String)
    (activeExc : Option PyExc) (tb : List String) (d : LogData)
    (hk : ∀ p ∈ kwargs, p.1 ≠ "logger_instance") :
    (emittedData (EnvironmentLogger.debug st m (some "") kwargs site now) = some d →
      d.trace_id = st.current_trace_id) ∧
    (emittedData (EnvironmentLogger.info st m (some "") kwargs site now) = some d →
      d.trace_id = st.current_trace_id) ∧
    (emittedData (EnvironmentLogger.warning st m (some "") kwargs site now) = some d →
      d.trace_id = st.current_trace_id) ∧
    (emittedData (EnvironmentLogger.error st m (some "") kwargs site now) = some d →
      d.trace_id = st.current_trace_id) ∧
    (emittedData (EnvironmentLogger.critical st m (some "") kwargs site now) = some d →
      d.trace_id = st.current_trace_id) ∧
    (emittedData (EnvironmentLogger.exception st m (some "") kwargs activeExc tb site now) = some d →
      d.trace_id = st.current_trace_id) := by
  have he : pyOr (some "") st.current_trace_id = st.current_trace_id := rfl
  rw [← he]
  exact ⟨emitted_trace_log_with_context st "DEBUG" m (some "") kwargs site now d hk,
         emitted_trace_log_with_context st "INFO" m (some "") kwargs site now d hk,
         emitted_trace_log_with_context st "WARNING" m (some "") kwargs site now d hk,
         emitted_trace_log_with_context st "ERROR" m (some "") kwargs site now d hk,
         emitted_trace_log_with_context st "CRITICAL" m (some "") kwargs site now d hk,
         emitted_trace_exception st m (some "") kwargs activeExc tb site now d hk⟩

theorem empty_trace_id_no_override_witness :
    (∀ p ∈ ([] : List (String × PyVal)), p.1 ≠ "logger_instance") ∧
    emittedData (EnvironmentLogger.error
      ⟨"RMRForecast", 20, "development", some "X"⟩ "m" (some "") []
      ⟨"mod", "fn", 7⟩ "ts") =
      some ⟨"ts", "ERROR", "development", some "X", "RMRForecast", "m", "mod", "fn", 7, none⟩ ∧
    (⟨"ts", "ERROR", "development", some "X", "RMRForecast", "m", "mod", "fn", 7,
      none⟩ : LogData).trace_id = some "X" :=
  ⟨by simp, by decide,
   (empty_trace_id_no_override ⟨"RMRForecast", 20, "development", some "X"⟩ "m"
     [] ⟨"mod", "fn", 7⟩ "ts" none []
     ⟨"ts", "ERROR", "development", some "X", "RMRForecast", "m", "mod", "fn", 7, none⟩
     (by simp)).2.2.2.1 (by decide)⟩

/-- Claim C2: for every leveled log call and for `exception`, an explicit
`trace_id` override is temporary: whenever the call returns (does not
raise), the logger's `current_trace_id` afterwards equals its value from
before the call; and in the spec's scenario, `set_trace_id("X")`, then
`info("m")` emits `"X"`, `info("m2", trace_id="Y")` emits `"Y"`, and a
following `info("m3")` emits `"X"` again. -/
theorem trace_id_override_restored (st : LoggerState) (m : String)
    (tid : Option String) (kwargs : List (String × PyVal)) (site : CallSite)
    (now : String) (activeExc : Option PyExc) (tb : List String) :
    (callReturned (EnvironmentLogger.debug st m tid kwargs site now) = true →
      (EnvironmentLogger.debug st m tid kwargs site now).2.current_trace_id =
        st.current_trace_id) ∧
    (callReturned (EnvironmentLogger.info st m tid kwargs site now) = true →
      (EnvironmentLogger.info st m tid kwargs site now).2.current_trace_id =
        st.current_trace_id) ∧
    (callReturned (EnvironmentLogger.warning st m tid kwargs site now) = true →
      (EnvironmentLogger.warning st m tid kwargs site now).2.current_trace_id =
        st.current_trace_id) ∧
    (callReturned (EnvironmentLogger.error st m tid kwargs site now) = true →
      (EnvironmentLogger.error st m tid kwargs site now).2.current_trace_id =
        st.current_trace_id) ∧
    (callReturned (EnvironmentLogger.critical st m tid kwargs site now) = true →
      (EnvironmentLogger.critical st m tid kwargs site now).2.current_trace_id =
        st.current_trace_id) ∧
    (callReturned (EnvironmentLogger.exception st m tid kwargs activeExc tb site now) = true →
      (EnvironmentLogger.exception st m tid kwargs activeExc tb site now).2.current_trace_id =
        st.current_trace_id) ∧
    ((emittedData (EnvironmentLogger.info
        (EnvironmentLogger.set_trace_id ⟨"RMRForecast", 20, "development", none⟩ "X")
        "m" none [] ⟨"mod", "fn", 1⟩ "t1")).map LogData.trace_id = some (some "X") ∧
     (emittedData (EnvironmentLogger.info
        (EnvironmentLogger.info
          (EnvironmentLogger.set_trace_id ⟨"RMRForecast", 20, "development", none⟩ "X")
          "m" none [] ⟨"mod", "fn", 1⟩ "t1").2
        "m2" (some "Y") [] ⟨"mod", "fn", 2⟩ "t2")).map LogData.trace_id = some (some "Y") ∧
     (emittedData (EnvironmentLogger.info
        (EnvironmentLogger.info
          (EnvironmentLogger.info
            (EnvironmentLogger.set_trace_id ⟨"RMRForecast", 20, "development", none⟩ "X")
            "m" none [] ⟨"mod", "fn", 1⟩ "t1").2
          "m2" (some "Y") [] ⟨"mod", "fn", 2⟩ "t2").2
        "m3" none [] ⟨"mod", "fn", 3⟩ "t3")).map LogData.trace_id = some (some "X")) :=
  ⟨snd_log_with_context st "DEBUG" m tid kwargs site now,
   snd_log_with_context st "INFO" m tid kwargs site now,
   snd_log_with_context st "WARNING" m tid kwargs site now,
   snd_log_with_context st "ERROR" m tid kwargs site now,
   snd_log_with_context st "CRITICAL" m tid kwargs site now,
   snd_exception st m tid kwargs activeExc tb site now,
   by decide, by decide, by decide⟩

theorem trace_id_override_restored_witness :
    callReturned (EnvironmentLogger.info
      ⟨"RMRForecast", 20, "development", some "X"⟩ "m2" (some "Y") []
      ⟨"mod", "fn", 2⟩ "t2") = true ∧
    (EnvironmentLogger.info ⟨"RMRForecast", 20, "development", some "X"⟩ "m2"
      (some "Y") [] ⟨"mod", "fn", 2⟩ "t2").2.current_trace_id = some "X" :=
  ⟨by decide,
   (trace_id_override_restored ⟨"RMRForecast", 20, "development", some "X"⟩
     "m2" (some "Y") [] ⟨"mod", "fn", 2⟩ "t2" none []).2.1 (by decide)⟩

theorem emitted_eq_log_with_context (st : LoggerState) (level m : String)
    (tid : Option String) (kwargs1 kwargs2 : List (String × PyVal))
    (site : CallSite) (now : String) (d1 d2 : LogData)
    (h1 : ∀ p ∈ kwargs1, p.1 ≠ "logger_instance")
    (h2 : ∀ p ∈ kwargs2, p.1 ≠ "logger_instance")
    (hd1 : emittedData (_log_with_context st level m tid kwargs1 site now) = some d1)
    (hd2 : emittedData (_log_with_context st level m tid kwargs2 site now) = some d2) :
    d1 = d2 := by
  rw [emittedData_log_with_context] at hd1 hd2
  cases hl : loggerMethods.lookup level with
  | none =>
    simp only [hl] at hd1
    exact absurd hd1 (by simp)
  | some ln =>
    simp only [hl] at hd1 hd2
    by_cases hA : ln < st.level
    · rw [if_pos hA] at hd1
      exact absurd hd1 (by simp)
    · rw [if_neg hA] at hd1 hd2
      by_cases hB1 : ((buildExtra
          (loggerPyVal { st with current_trace_id := pyOr tid st.current_trace_id })
          kwargs1).any (fun p => reservedRecordAttrs.contains p.1)) = true
      · rw [if_pos hB1] at hd1
        exact absurd hd1 (by simp)
      · rw [if_neg hB1] at hd1
        by_cases hB2 : ((buildExtra
            (loggerPyVal { st with current_trace_id := pyOr tid st.current_trace_id })
            kwargs2).any (fun p => reservedRecordAttrs.contains p.1)) = true
        · rw [if_pos hB2] at hd2
          exact absurd hd2 (by simp)
        · rw [if_neg hB2] at hd2
          injection hd1 with e1
          injection hd2 with e2
          rw [← e1, ← e2]
          refine format_congr now _ _ rfl rfl rfl rfl rfl rfl rfl ?_
          rw [buildExtra_lookup _ kwargs1 h1, buildExtra_lookup _ kwargs2 h2]

theorem emitted_eq_exception (st : LoggerState) (m : String)
    (tid : Option String) (kwargs1 kwargs2 : List (String × PyVal))
    (activeExc : Option PyExc) (tb : List String)
    (site : CallSite) (now : String) (d1 d2 : LogData)
    (h1 : ∀ p ∈ kwargs1, p.1 ≠ "logger_instance")
    (h2 : ∀ p ∈ kwargs2, p.1 ≠ "logger_instance")
    (hd1 : emittedData
      (EnvironmentLogger.exception st m tid kwargs1 activeExc tb site now) = some d1)
    (hd2 : emittedData
      (EnvironmentLogger.exception st m tid kwargs2 activeExc tb site now) = some d2) :
    d1 = d2 := by
  rw [emittedData_exception] at hd1 hd2
  by_cases hA : 40 < st.level
  · rw [if_pos hA] at hd1
    exact absurd hd1 (by simp)
  · rw [if_neg hA] at hd1 hd2
    by_cases hB1 : ((buildExtra
        (loggerPyVal { st with current_trace_id := pyOr tid st.current_trace_id })
        kwargs1).any (fun p => reservedRecordAttrs.contains p.1)) = true
    · rw [if_pos hB1] at hd1
      exact absurd hd1 (by simp)
    · rw [if_neg hB1] at hd1
      by_cases hB2 : ((buildExtra
          (loggerPyVal { st with current_trace_id := pyOr tid st.current_trace_id })
          kwargs2).any (fun p => reservedRecordAttrs.contains p.1)) = true
      · rw [if_pos hB2] at hd2
        exact absurd hd2 (by simp)
      · rw [if_neg hB2] at hd2
        injection hd1 with e1
        injection hd2 with e2
        rw [← e1, ← e2]
        refine format_congr now _ _ rfl rfl rfl rfl rfl rfl rfl ?_
        rw [buildExtra_lookup _ kwargs1 h1, buildExtra_lookup _ kwargs2 h2]

/-- Claim C10, counterexample: a keyword argument named `logger_instance`
overwrites the logger reference in the `extra` dict, so two `info` calls on
the same logger differing only in their kwargs emit different content
(`trace_id` `"EVIL"` versus `"X"`, with identical timestamps). -/
theorem kwargs_noninterference_counterexample :
    (emittedData (EnvironmentLogger.info
      ⟨"RMRForecast", 20, "development", some "X"⟩ "m" none
      [("logger_instance", ⟨true, some "EVIL", some "production"⟩)]
      ⟨"mod", "fn", 1⟩ "ts")).map LogData.trace_id = some (some "EVIL") ∧
    (emittedData (EnvironmentLogger.info
      ⟨"RMRForecast", 20, "development", some "X"⟩ "m" none []
      ⟨"mod", "fn", 1⟩ "ts")).map LogData.trace_id = some (some "X") ∧
    some (some "EVIL") ≠ some (some "X") :=
  ⟨by decide, by decide, by decide⟩

/-- Claim C10 (amended): extra keyword fields never appear in the serialized
output, provided no kwarg reuses the reserved `logger_instance` key: for
every leveled log call and for `exception`, two calls on the same logger
differing only in such kwargs that both emit a record emit identical
content (the same timestamp parameter is passed to both). -/
theorem kwargs_noninterference (st : LoggerState) (m : String)
    (tid : Option String) (kwargs1 kwargs2 : List (String × PyVal))
    (site : CallSite) (now : String) (activeExc : Option PyExc)
    (tb : List String) (d1 d2 : LogData)
    (h1 : ∀ p ∈ kwargs1, p.1 ≠ "logger_instance")
    (h2 : ∀ p ∈ kwargs2, p.1 ≠ "logger_instance") :
    (emittedData (EnvironmentLogger.debug st m tid kwargs1 site now) = some d1 →
      emittedData (EnvironmentLogger.debug st m tid kwargs2 site now) = some d2 →
      d1 = d2) ∧
    (emittedData (EnvironmentLogger.info st m tid kwargs1 site now) = some d1 →
      emittedData (EnvironmentLogger.info st m tid kwargs2 site now) = some d2 →
      d1 = d2) ∧
    (emittedData (EnvironmentLogger.warning st m tid kwargs1 site now) = some d1 →
      emittedData (EnvironmentLogger.warning st m tid kwargs2 site now) = some d2 →
      d1 = d2) ∧
    (emittedData (EnvironmentLogger.error st m tid kwargs1 site now) = some d1 →
      emittedData (EnvironmentLogger.error st m tid kwargs2 site now) = some d2 →
      d1 = d2) ∧
    (emittedData (EnvironmentLogger.critical st m tid kwargs1 site now) = some d1 →
      emittedData (EnvironmentLogger.critical st m tid kwargs2 site now) = some d2 →
      d1 = d2) ∧
    (emittedData (EnvironmentLogger.exception st m tid kwargs1 activeExc tb site now) = some d1 →
      emittedData (EnvironmentLogger.exception st m tid kwargs2 activeExc tb site now) = some d2 →
      d1 = d2) :=
  ⟨emitted_eq_log_with_context st "DEBUG" m tid kwargs1 kwargs2 site now d1 d2 h1 h2,
   emitted_eq_log_with_context st "INFO" m tid kwargs1 kwargs2 site now d1 d2 h1 h2,
   emitted_eq_log_with_context st "WARNING" m tid kwargs1 kwargs2 site now d1 d2 h1 h2,
   emitted_eq_log_with_context st "ERROR" m tid kwargs1 kwargs2 site now d1 d2 h1 h2,
   emitted_eq_log_with_context st "CRITICAL" m tid kwargs1 kwargs2 site now d1 d2 h1 h2,
   emitted_eq_exception st m tid kwargs1 kwargs2 activeExc tb site now d1 d2 h1 h2⟩

theorem kwargs_noninterference_witness :
    (∀ p ∈ [(("user_id" : String), (⟨true, none, none⟩ : PyVal))],
      p.1 ≠ "logger_instance") ∧
    emittedData (EnvironmentLogger.info
      ⟨"RMRForecast", 20, "development", some "X"⟩ "m" none
      [("user_id", ⟨true, none, none⟩)] ⟨"mod", "fn", 1⟩ "ts") =
      some ⟨"ts", "INFO", "development", some "X", "RMRForecast", "m", "mod", "fn", 1, none⟩ ∧
    emittedData (EnvironmentLogger.info
      ⟨"RMRForecast", 20, "development", some "X"⟩ "m" none []
      ⟨"mod", "fn", 1⟩ "ts") =
      some ⟨"ts", "INFO", "development", some "X", "RMRForecast", "m", "mod", "fn", 1, none⟩ ∧
    (⟨"ts", "INFO", "development", some "X", "RMRForecast", "m", "mod", "fn", 1,
      none⟩ : LogData) =
      ⟨"ts", "INFO", "development", some "X", "RMRForecast", "m", "mod", "fn", 1, none⟩ :=
  ⟨by simp, by decide, by decide,
   (kwargs_noninterference ⟨"RMRForecast", 20, "development", some "X"⟩ "m" none
     [("user_id", ⟨true, none, none⟩)] [] ⟨"mod", "fn", 1⟩ "ts" none []
     ⟨"ts", "INFO", "development", some "X", "RMRForecast", "m", "mod", "fn", 1, none⟩
     ⟨"ts", "INFO", "development", some "X", "RMRForecast", "m", "mod", "fn", 1, none⟩
     (by simp) (by simp)).2.1 (by decide) (by decide)⟩

theorem rootCause_hasNoCause (e : PyExc) : (rootCause e).hasNoCause = true := by
  induction e with
  | base t msg => rfl
  | chained t msg c ih => simpa [rootCause] using ih

/-- Claim C4: when `exception(message)` runs inside a handler for a raised
error with a chained cause, the emitted record has a non-null
`exception_type` (the active exception's type name), a `root_cause_type`
equal to the type name of the innermost exception reached by following
`__cause__` links (which itself has no further cause), and a `traceback`
field equal to the stripped join of at most the last 10 formatted lines. -/
theorem exception_enrichment (st : LoggerState) (m : String)
    (tid : Option String) (kwargs : List (String × PyVal)) (site : CallSite)
    (now : String) (t msg : String) (cause : PyExc) (tb : List String)
    (d : LogData)
    (hd : emittedData (EnvironmentLogger.exception st m tid kwargs
      (some (PyExc.chained t msg cause)) tb site now) = some d) :
    d.excOut.map ExcOut.exception_type = some (some t) ∧
    d.excOut.map ExcOut.root_cause_type =
      some (some ((rootCause (PyExc.chained t msg cause)).typeName)) ∧
    (rootCause (PyExc.chained t msg cause)).hasNoCause = true ∧
    d.excOut.map ExcOut.tb_str =
      some (pyStrip (String.join (tb.drop (tb.length - 10)))) ∧
    (tb.drop (tb.length - 10)).length ≤ 10 := by
  have hlen : (tb.drop (tb.length - 10)).length ≤ 10 := by
    rw [List.length_drop]
    omega
  rw [emittedData_exception] at hd
  by_cases hA : 40 < st.level
  · rw [if_pos hA] at hd
    exact absurd hd (by simp)
  · rw [if_neg hA] at hd
    by_cases hB : ((buildExtra
        (loggerPyVal { st with current_trace_id := pyOr tid st.current_trace_id })
        kwargs).any (fun p => reservedRecordAttrs.contains p.1)) = true
    · rw [if_pos hB] at hd
      exact absurd hd (by simp)
    · rw [if_neg hB] at hd
      injection hd with hd
      rw [← hd]
      refine ⟨?_, ?_, rootCause_hasNoCause _, ?_, hlen⟩
      · simp [CustomFormatter.format, PyExc.typeName]
      · simp [CustomFormatter.format]
      · by_cases htb : tb.isEmpty = true
        · have : tb = [] := List.isEmpty_iff.1 htb
          subst this
          simp [CustomFormatter.format]
          rfl
        · simp [CustomFormatter.format, htb]

theorem exception_enrichment_witness :
    (emittedData (EnvironmentLogger.exception
      ⟨"RMRForecast", 20, "development", some "X"⟩ "failed" none []
      (some (PyExc.chained "WrapperError" "failed"
        (PyExc.chained "MidError" "mid" (PyExc.base "RootError" "boom"))))
      ["l01\n", "l02\n", "l03\n", "l04\n", "l05\n", "l06\n", "l07\n", "l08\n",
       "l09\n", "l10\n", "l11\n", "l12\n"]
      ⟨"mod", "fn", 9⟩ "ts")).map
        (fun d => d.excOut.map (fun e =>
          (e.exception_type, e.root_cause_type, e.tb_str))) =
      some (some (some "WrapperError", some "RootError",
        "l03\nl04\nl05\nl06\nl07\nl08\nl09\nl10\nl11\nl12")) ∧
    ((["l01\n", "l02\n", "l03\n", "l04\n", "l05\n", "l06\n", "l07\n", "l08\n",
       "l09\n", "l10\n", "l11\n", "l12\n"] : List String).drop
        (12 - 10)).length ≤ 10 := by
  constructor
  · have h := exception_enrichment
      ⟨"RMRForecast", 20, "development", some "X"⟩ "failed" none []
      ⟨"mod", "fn", 9⟩ "ts" "WrapperError" "failed"
      (PyExc.chained "MidError" "mid" (PyExc.base "RootError" "boom"))
      ["l01\n", "l02\n", "l03\n", "l04\n", "l05\n", "l06\n", "l07\n", "l08\n",
       "l09\n", "l10\n", "l11\n", "l12\n"]
      ⟨"ts", "ERROR", "development", some "X", "RMRForecast", "failed", "mod",
        "fn", 9,
        some ⟨some "WrapperError", some "failed", some "RootError", some "boom",
          "l03\nl04\nl05\nl06\nl07\nl08\nl09\nl10\nl11\nl12"⟩⟩
      (by decide)
    decide
  · decide

/-- Claim C3, counterexample: a record emitted by a plain leveled call has
exactly the nine base keys; the five exception keys are omitted entirely,
not serialized as null as the claim states. -/
theorem record_key_set_counterexample :
    (emittedData (EnvironmentLogger.info
      ⟨"RMRForecast", 20, "development", some "X"⟩ "m" none []
      ⟨"mod", "fn", 1⟩ "ts")).map (fun d => d.toPairs.map Prod.fst) =
      some ["timestamp", "level", "environment", "trace_id", "logger",
        "message", "module", "function", "line"] ∧
    "exception_type" ∉ ["timestamp", "level", "environment", "trace_id",
      "logger", "message", "module", "function", "line"] :=
  ⟨by decide, by decide⟩

/-- Claim C3 (amended): every record serialized by `CustomFormatter.format`
is a single-line JSON object (its `json.dumps` rendering contains no newline
character); its key set is exactly the nine base keys on a record without
`exc_info`, and exactly the nine base keys followed by the five exception
keys on an exception-path record — absent exception data omits the
exception keys rather than serializing them as null. -/
theorem record_key_set (now : String) (record : LogRecord) :
    (CustomFormatter.format now record).toPairs.map Prod.fst =
      (if record.excInfo.isSome then
        ["timestamp", "level", "environment", "trace_id", "logger", "message",
         "module", "function", "line", "exception_type", "exception_message",
         "root_cause_type", "root_cause_message", "traceback"]
       else
        ["timestamp", "level", "environment", "trace_id", "logger", "message",
         "module", "function", "line"]) ∧
    '\n' ∉ (jsonDumps (CustomFormatter.format now record).toPairs).toList := by
  refine ⟨?_, jsonDumps_single_line _⟩
  cases h : record.excInfo with
  | none => simp [CustomFormatter.format, LogData.toPairs, h]
  | some ei => simp [CustomFormatter.format, LogData.toPairs, h]
